import Mathlib

/-!
Verification of the energy-trading pipeline (StarRocks + Dagster demo).

Shallow embedding of the pipeline's coordination layer:
* the Ollama oracle call and its fallback rule
  (`src/dagster/energy_trading/assets/trading_decision.py`,
  function `_get_trading_decision_from_ollama`),
* the dual persistence of a trading decision to Delta Lake and StarRocks,
* the Hive-Metastore registration protocol
  (`src/dagster/energy_trading/utils.py`,
  function `register_delta_table_in_hive_metastore`),
* the StarRocks surrogate-key computation, and
* the configuration handling of the StarRocks password.

Python strings are modelled as `List Char`; Python floats as `ℚ` (the claims
under verification are about control flow and exact comparisons, not about
rounding); remote calls are modelled by explicit outcome parameters, and a
Python `try`/`except` block by an inner `Except`-valued function together with
an outer handler.
-/

/-- Python whitespace, as stripped by `str.strip()` (space, tab, newline,
carriage return, vertical tab, form feed — code points 32, 9, 10, 13, 11, 12). -/
def pySpace (c : Char) : Bool :=
  c.toNat = 32 || c.toNat = 9 || c.toNat = 10 ||
    c.toNat = 13 || c.toNat = 11 || c.toNat = 12

/-- ASCII lowercasing of one character, modelling Python `str.lower` on the
ASCII range (the only range relevant to detecting the token `"yes"`):
code points 65-90 (`A`-`Z`) shift by 32 to 97-122 (`a`-`z`). -/
def pyLower (c : Char) : Char :=
  if 65 ≤ c.toNat ∧ c.toNat ≤ 90 then Char.ofNat (c.toNat + 32) else c

/-- Strip `p`-satisfying characters from both ends of a list, modelling
Python `str.strip()` for `p := pySpace`. -/
def stripEnds (p : Char → Bool) (l : List Char) : List Char :=
  ((l.dropWhile p).reverse.dropWhile p).reverse

/-- Python `str.strip()`. -/
def pyStrip (l : List Char) : List Char := stripEnds pySpace l

/-- Python substring test `w in l`. -/
def pyContains (w l : List Char) : Bool := decide (w <:+: l)

/-- The token searched for in the oracle's answer. -/
def yesToken : List Char := ['y', 'e', 's']

/-- Outcome of the HTTP round trip to the Ollama oracle, as observed by
`_get_trading_decision_from_ollama`:
* `timeout` — `requests.post` raises a timeout after 30 s;
* `transportError` — `requests.post` raises a connection/transport error;
* `httpErrorStatus` — `response.raise_for_status()` raises on a 4xx/5xx code;
* `malformedJson` — `response.json()` raises on an unparsable body;
* `jsonOk respField` — a parsed JSON object whose optional string field
  `"response"` is `respField` (`none` models a JSON object missing that key).
-/
inductive OllamaOutcome where
  | timeout
  | transportError
  | httpErrorStatus (code : Nat)
  | malformedJson
  | jsonOk (respField : Option (List Char))

/-- Embedding of `_get_trading_decision_from_ollama`
(`trading_decision.py`, lines 75-142).  On a parsed response carrying the
`"response"` field, the decision is `'yes' in response.strip().lower()`;
every other outcome (exception caught by the catch-all `except`, or the
field missing) falls through to the rule `predicted_price > 50`.  The Python
function always returns a `bool`; accordingly the embedding is total. -/
def getTradingDecisionFromOllama (o : OllamaOutcome) (predicted : ℚ) : Bool :=
  match o with
  | .jsonOk (some text) => pyContains yesToken ((pyStrip text).map pyLower)
  | _ => decide (predicted > 50)

/-- Spec-side reading of claim C4: the response text contains the substring
`"yes"` case-insensitively (lowercase both and test containment). -/
def containsYesCI (text : List Char) : Bool :=
  pyContains yesToken (text.map pyLower)

-- Helper lemmas for C4 -------------------------------------------------------

/-- Evaluating `Char.ofNat` below the surrogate range. -/
lemma toNat_ofNat_of_lt {n : Nat} (h : n < 55296) : (Char.ofNat n).toNat = n := by
  rw [Char.ofNat, dif_pos (Or.inl h)]
  rfl

/-- `pyLower` maps no character into or out of the whitespace class. -/
lemma pySpace_pyLower (c : Char) : pySpace (pyLower c) = pySpace c := by
  unfold pyLower
  by_cases h : 65 ≤ c.toNat ∧ c.toNat ≤ 90
  · rw [if_pos h]
    have h32 : (Char.ofNat (c.toNat + 32)).toNat = c.toNat + 32 :=
      toNat_ofNat_of_lt (by omega)
    have hl : pySpace (Char.ofNat (c.toNat + 32)) = false := by
      simp only [pySpace, h32, Bool.or_eq_false_iff, decide_eq_false_iff_not]
      omega
    have hr : pySpace c = false := by
      simp only [pySpace, Bool.or_eq_false_iff, decide_eq_false_iff_not]
      omega
    rw [hl, hr]
  · rw [if_neg h]

/-- Lowercasing commutes with dropping leading whitespace. -/
lemma map_pyLower_dropWhile (l : List Char) :
    (l.dropWhile pySpace).map pyLower = (l.map pyLower).dropWhile pySpace := by
  rw [List.dropWhile_map]
  have hcomp : pySpace ∘ pyLower = pySpace := funext pySpace_pyLower
  rw [hcomp]

/-- Lowercasing commutes with stripping whitespace. -/
lemma map_pyLower_pyStrip (l : List Char) :
    (pyStrip l).map pyLower = pyStrip (l.map pyLower) := by
  unfold pyStrip stripEnds
  rw [List.map_reverse, map_pyLower_dropWhile, List.map_reverse,
    map_pyLower_dropWhile]

/-- A nonempty token all of whose characters fail `p` occurs in
`l.dropWhile p` exactly when it occurs in `l`. -/
lemma infix_dropWhile_iff (p : Char → Bool) (w l : List Char)
    (hne : w ≠ []) (hall : ∀ a ∈ w, p a = false) :
    w <:+: l.dropWhile p ↔ w <:+: l := by
  constructor
  · intro h
    exact h.trans ( List.IsSuffix.isInfix ( List.dropWhile_suffix p))
  · intro h
    induction l with
    | nil => simpa using h
    | cons x xs ih =>
      rw [List.dropWhile_cons]
      by_cases hx : p x = true
      · simp only [hx, if_true]
        apply ih
        rcases List.infix_cons_iff.1 h with hpre | hinf
        · exfalso
          obtain ⟨t, ht⟩ := hpre
          cases w with
          | nil => exact hne rfl
          | cons wh wt =>
            rw [List.cons_append] at ht
            have hwh : wh = x := (List.cons.injEq _ _ _ _ ▸ ht).1
            have := hall wh (List.mem_cons_self wh wt)
            rw [hwh] at this
            exact absurd this (by simp [hx])
        · exact hinf
      · simp only [hx, if_false]
        exact h

/-- A nonempty token all of whose characters fail `p` occurs in
`stripEnds p l` exactly when it occurs in `l`. -/
lemma infix_stripEnds_iff (p : Char → Bool) (w l : List Char)
    (hne : w ≠ []) (hall : ∀ a ∈ w, p a = false) :
    w <:+: stripEnds p l ↔ w <:+: l := by
  have hner : w.reverse ≠ [] := by
    intro hcon
    exact hne (by simpa using congrArg List.reverse hcon)
  have hallr : ∀ a ∈ w.reverse, p a = false := by
    intro a ha
    exact hall a (List.mem_reverse.1 ha)
  unfold stripEnds
  constructor
  · intro h
    have h1 := h.reverse
    simp only [List.reverse_reverse] at h1
    have h2 := (infix_dropWhile_iff p w.reverse _ hner hallr).1 h1
    have h3 := h2.reverse
    simp only [List.reverse_reverse] at h3
    exact (infix_dropWhile_iff p w l hne hall).1 h3
  · intro h
    have h1 := (infix_dropWhile_iff p w l hne hall).2 h
    have h2 := h1.reverse
    have h3 := (infix_dropWhile_iff p w.reverse _ hner hallr).2 h2
    have h4 := h3.reverse
    simp only [List.reverse_reverse] at h4
    exact h4

-- StarRocks relational mirror -------------------------------------------------

/-- One row of the StarRocks `energy_trading.trading_decisions` table
(`id BIGINT, timestamp DATETIME, predicted_price FLOAT, decision BOOLEAN`);
the `NOW()` timestamp is irrelevant to every claim and omitted. -/
structure SRRow where
  id : Nat
  predicted_price : ℚ
  decision : Bool
deriving DecidableEq

/-- `MAX(id)` with `IFNULL(..., 0)`: the largest id in the table, `0` when the
table is empty. -/
def maxId (t : List SRRow) : Nat :=
  t.foldr (fun r m => max r.id m) 0

/-- `SELECT IFNULL(MAX(id), 0) + 1 FROM trading_decisions`
(`trading_decision.py`, line 305): the surrogate key for the next insert. -/
def nextId (t : List SRRow) : Nat := maxId t + 1

/-- The `INSERT INTO trading_decisions ... VALUES ...` step (lines 308-311):
append one row carrying the freshly computed key. -/
def insertDecision (t : List SRRow) (price : ℚ) (dec : Bool) : List SRRow :=
  t ++ [⟨nextId t, price, dec⟩]

/-- Serialized execution of a batch of decision writes, one
read-max-then-insert sequence after another. -/
def insertAll (t : List SRRow) (ds : List (ℚ × Bool)) : List SRRow :=
  ds.foldl (fun acc d => insertDecision acc d.1 d.2) t

-- Two concurrent StarRocks writers (claim C8) ---------------------------------

/-- Program counter of one writer running the read-max-then-insert sequence of
`_store_decision_in_starrocks` on its own connection. -/
inductive WriterPC where
  | start
  | gotId (v : Nat)
  | done (v : Nat)
deriving DecidableEq

/-- One step of a single writer: first the `SELECT IFNULL(MAX(id),0)+1`, then
the `INSERT` using the previously read value (which may be stale by then). -/
def wStep (price : ℚ) (dec : Bool) : WriterPC → List SRRow → WriterPC × List SRRow
  | .start, t => (.gotId (nextId t), t)
  | .gotId v, t => (.done v, t ++ [⟨v, price, dec⟩])
  | .done v, t => (.done v, t)

/-- Shared table plus the two writers' program counters. -/
structure ConcState where
  tbl : List SRRow
  w1 : WriterPC
  w2 : WriterPC
deriving DecidableEq

/-- Interleaved execution: at each step the scheduler picks writer 1 (`true`)
or writer 2 (`false`); there is no mutual exclusion anywhere in the code, so
every schedule is possible. -/
def cStep (pr1 pr2 : ℚ) (d1 d2 : Bool) (s : ConcState) (who : Bool) : ConcState :=
  if who then
    let r := wStep pr1 d1 s.w1 s.tbl
    ⟨r.2, r.1, s.w2⟩
  else
    let r := wStep pr2 d2 s.w2 s.tbl
    ⟨r.2, s.w1, r.1⟩

/-- Run a whole schedule of interleaved writer steps. -/
def runSched (pr1 pr2 : ℚ) (d1 d2 : Bool) (sched : List Bool) (s : ConcState) :
    ConcState :=
  sched.foldl (cStep pr1 pr2 d1 d2) s

-- Dual persistence of a decision (claims C1, C2) ------------------------------

/-- A Decision record as appended to the Delta Lake `trading_decisions` table
(timestamp omitted, as above). -/
structure DecisionRec where
  predicted_price : ℚ
  decision : Bool
deriving DecidableEq

/-- The two persistence targets of the decision stage. -/
structure Stores where
  delta : List DecisionRec
  sr : List SRRow
deriving DecidableEq

/-- The `write_deltalake(..., mode="append")` call inside
`_store_decision_in_delta_lake` (`trading_decision.py`, lines 151-183), before
the surrounding handler: it appends one record or raises. -/
def writeDecisionDelta (ok : Bool) (st : Stores) (r : DecisionRec) :
    Except Unit Stores :=
  if ok then .ok { st with delta := st.delta ++ [r] } else .error ()

/-- `_store_decision_in_delta_lake` (lines 145-186): the whole body sits in a
`try`/`except` that logs and does not re-raise, so the caller always sees a
normal return; on write failure the store is unchanged.  (The trailing Hive
registration call has its own catch-all and cannot raise.) -/
def storeDecisionInDeltaLake (ok : Bool) (st : Stores) (r : DecisionRec) :
    Stores :=
  match writeDecisionDelta ok st r with
  | .ok st2 => st2
  | .error _ => st

/-- `_store_decision_in_starrocks` (lines 280-314): no handler anywhere, so a
StarRocks connectivity failure escapes to the caller; `.error` carries the
store state left behind (unchanged: the insert did not commit). -/
def storeDecisionInStarrocks (ok : Bool) (st : Stores) (r : DecisionRec) :
    Except Stores Stores :=
  if ok then
    .ok { st with sr := insertDecision st.sr r.predicted_price r.decision }
  else .error st

/-- The `trading_decision` asset (lines 25-48) from the point where
`predicted_price` is known: oracle call with fallback, Delta Lake append
(failure swallowed), then StarRocks insert (failure propagates and fails the
stage, modelled by `.error` carrying the stores as left behind). -/
def tradingDecisionAsset (o : OllamaOutcome) (deltaOk srOk : Bool) (price : ℚ)
    (st : Stores) : Except Stores ((ℚ × Bool) × Stores) :=
  let trade := getTradingDecisionFromOllama o price
  let st1 := storeDecisionInDeltaLake deltaOk st ⟨price, trade⟩
  match storeDecisionInStarrocks srOk st1 ⟨price, trade⟩ with
  | .ok st2 => .ok ((price, trade), st2)
  | .error st2 => .error st2

-- Hive Metastore registration (claims C5, C6) ---------------------------------

/-- A Hive Metastore table entry: namespace, table name, column schema as
ordered (name, type, comment) triples, physical location. -/
structure CatalogTable where
  dbName : String
  tableName : String
  cols : List (String × String × String)
  location : String
deriving DecidableEq

/-- The Hive Metastore state: known databases and registered tables. -/
structure Catalog where
  databases : List String
  tables : List CatalogTable
deriving DecidableEq

/-- Whether `get_database(ns)` finds the database. -/
def Catalog.hasDb (cat : Catalog) (ns : String) : Bool :=
  cat.databases.any fun d => d = ns

/-- Whether `get_table(ns, tbl)` finds an entry. -/
def Catalog.hasTable (cat : Catalog) (ns tbl : String) : Bool :=
  cat.tables.any fun t => t.dbName = ns && t.tableName = tbl

/-- Number of catalog entries for `(ns, tbl)`. -/
def Catalog.countTable (cat : Catalog) (ns tbl : String) : Nat :=
  cat.tables.countP fun t => t.dbName = ns && t.tableName = tbl

/-- `drop_table(ns, tbl)`. -/
def Catalog.removeTable (cat : Catalog) (ns tbl : String) : Catalog :=
  { cat with
    tables := cat.tables.filter fun t => !(t.dbName = ns && t.tableName = tbl) }

/-- Which remote Metastore calls succeed during one registration attempt.
`getDbConn`/`getTableConn`/`verifyConn` model connectivity of the lookup
calls — inside the code's inner `try` a failed lookup is indistinguishable
from the object being absent.  `hmsAvailable` models the `hmsclient` import
succeeding. -/
structure ConnSched where
  hmsAvailable : Bool
  openOk : Bool
  getDbConn : Bool
  createDbOk : Bool
  getTableConn : Bool
  dropOk : Bool
  createTableOk : Bool
  verifyConn : Bool
  closeOk : Bool
deriving DecidableEq

/-- A registration attempt with full connectivity. -/
def allOk : ConnSched := ⟨true, true, true, true, true, true, true, true, true⟩

/-- How one call of the registrar ends, as observable by the caller. -/
inductive RegResult where
  | registered
  | alreadyRegistered
  | softFail
  | skippedNoClient
deriving DecidableEq

/-- `create_table` followed by the verifying `get_table` and `client.close()`
(`utils.py`, lines 137-186).  `create_table` on an already-present entry
raises (AlreadyExists), reachable only when the earlier lookup failed on
connectivity.  A `.error` value is an exception escaping to the outer
handlers, carrying the Metastore state at that point. -/
def createAndVerify (s : ConnSched) (cat : Catalog) (ns tbl : String)
    (cols : List (String × String × String)) (loc : String) :
    Except Catalog (Catalog × RegResult) :=
  if !s.createTableOk || cat.hasTable ns tbl then .error cat
  else
    let cat2 : Catalog := { cat with tables := cat.tables ++ [⟨ns, tbl, cols, loc⟩] }
    if !s.verifyConn then .error cat2
    else if !s.closeOk then .error cat2
    else .ok (cat2, .registered)

/-- The table phase of the registrar (`utils.py`, lines 124-186): look up the
table; if present either drop-and-recreate or report already-registered; if
absent (or the lookup failed) create it. -/
def tablePhase (s : ConnSched) (cat1 : Catalog) (ns tbl : String)
    (cols : List (String × String × String)) (loc : String)
    (dropIfExists : Bool) : Except Catalog (Catalog × RegResult) :=
  if s.getTableConn && cat1.hasTable ns tbl then
    if dropIfExists then
      if !s.dropOk then .error cat1
      else createAndVerify s (cat1.removeTable ns tbl) ns tbl cols loc
    else if !s.closeOk then .error cat1
    else .ok (cat1, .alreadyRegistered)
  else createAndVerify s cat1 ns tbl cols loc

/-- Body of `register_delta_table_in_hive_metastore` (`utils.py`, lines
93-186) up to but excluding the outer `except` handlers: open the client,
ensure the database (an inner `try` treats a failed `get_database` like an
absent database and calls `create_database`, which raises on connectivity
failure or on a genuinely pre-existing database), then run the table phase. -/
def registerInner (s : ConnSched) (cat : Catalog) (ns tbl : String)
    (cols : List (String × String × String)) (loc : String)
    (dropIfExists : Bool) : Except Catalog (Catalog × RegResult) :=
  if !s.openOk then .error cat
  else if s.getDbConn && cat.hasDb ns then
    tablePhase s cat ns tbl cols loc dropIfExists
  else if s.createDbOk && !cat.hasDb ns then
    tablePhase s { cat with databases := cat.databases ++ [ns] } ns tbl cols loc
      dropIfExists
  else .error cat

/-- `register_delta_table_in_hive_metastore` with its `except ImportError` and
`except Exception` handlers (`utils.py`, lines 188-195): every escaping
exception is logged and absorbed, so the registrar always returns normally —
with `.softFail` flagging that registration did not complete. -/
def registerHMS (s : ConnSched) (cat : Catalog) (ns tbl : String)
    (cols : List (String × String × String)) (loc : String)
    (dropIfExists : Bool) : Catalog × RegResult :=
  if !s.hmsAvailable then (cat, .skippedNoClient)
  else
    match registerInner s cat ns tbl cols loc dropIfExists with
    | .ok r => r
    | .error c => (c, .softFail)

-- Weather-data asset (claims C2, C6, C9) --------------------------------------

/-- One row of the generated weather dataset. -/
structure WeatherRow where
  temperature : ℚ
  humidity : ℚ
  wind_speed : ℚ
  energy_price : ℚ
deriving DecidableEq

/-- The three feature columns fed to the predictor. -/
structure FeatureRow where
  temperature : ℚ
  humidity : ℚ
  wind_speed : ℚ
deriving DecidableEq

/-- The schema registered for the weather table (`weather_data.py`,
lines 39-44). -/
def weatherCols : List (String × String × String) :=
  [("temperature", "double", "Temperature in Celsius"),
   ("humidity", "double", "Humidity percentage"),
   ("wind_speed", "double", "Wind speed in m/s"),
   ("energy_price", "double", "Energy price")]

/-- `_write_to_delta_lake` (`weather_data.py`, lines 129-149): the append is
attempted; on failure the handler logs and then re-raises (`raise`), so the
error reaches the caller as a hard error. -/
def writeToDeltaLake (ok : Bool) (store df : List WeatherRow) :
    Except Unit (List WeatherRow) :=
  if ok then .ok (store ++ df) else .error ()

/-- The external state the weather asset touches. -/
structure WeatherWorld where
  delta : List WeatherRow
  catalog : Catalog
deriving DecidableEq

/-- The `weather_data` asset (`weather_data.py`, lines 25-49) after generating
`df`: write to Delta Lake (hard failure propagates), then register in the
Metastore (soft), then return the dataframe. -/
def weatherDataAsset (writeOk : Bool) (s : ConnSched) (loc : String)
    (df : List WeatherRow) (w : WeatherWorld) :
    Except Unit (List WeatherRow × WeatherWorld) :=
  match writeToDeltaLake writeOk w.delta df with
  | .error e => .error e
  | .ok delta2 =>
    let reg := registerHMS s w.catalog "raw_data" "weather" weatherCols loc false
    .ok (df, ⟨delta2, reg.1⟩)

-- Feature selection for the decision stage (claim C9) -------------------------

/-- `np.random.uniform(lo, hi)` modelled as `lo + (hi - lo) * u` for a unit
sample `u ∈ [0, 1)` supplied by the environment. -/
def uniformSample (lo hi u : ℚ) : ℚ := lo + (hi - lo) * u

/-- `_get_latest_weather_data` (`trading_decision.py`, lines 51-72): with more
than one row available, the last row's three feature columns
(`weather_data.iloc[-1:][['temperature', 'humidity', 'wind_speed']]`);
otherwise three fresh uniform samples from the fixed demo ranges. -/
def getLatestWeatherData (rows : List WeatherRow) (u1 u2 u3 : ℚ) : FeatureRow :=
  if 1 < rows.length then
    let r := rows.getLastD ⟨0, 0, 0, 0⟩
    ⟨r.temperature, r.humidity, r.wind_speed⟩
  else
    ⟨uniformSample 15 30 u1, uniformSample 40 80 u2, uniformSample 1 15 u3⟩

-- StarRocks connection configuration (claim C10) ------------------------------

/-- Default of `STARROCKS_PASSWORD` (`config.py`, line 14). -/
def defaultStarrocksPassword : String := "root"

/-- The password argument `get_starrocks_connection` hands to
`pymysql.connect` (`utils.py`, line 35):
`"" if STARROCKS_PASSWORD == "root" else STARROCKS_PASSWORD`. -/
def effectiveStarrocksPassword (configured : String) : String :=
  if configured = "root" then "" else configured

-- Helper lemmas for the surrogate-key arguments -------------------------------

/-- Every id already in the table is bounded by `MAX(id)`. -/
lemma id_le_maxId (t : List SRRow) (r : SRRow) (hr : r ∈ t) :
    r.id ≤ maxId t := by
  induction t with
  | nil => cases hr
  | cons x xs ih =>
    rcases List.mem_cons.1 hr with h | h
    · subst h
      exact le_max_left _ _
    · exact le_trans (ih h) (le_max_right _ _)

/-- The freshly computed surrogate key exceeds every id in the table. -/
lemma id_lt_nextId (t : List SRRow) (r : SRRow) (hr : r ∈ t) :
    r.id < nextId t :=
  Nat.lt_succ_of_le (id_le_maxId t r hr)

/-- Membership form of `id_lt_nextId` on the projected id list. -/
lemma mem_ids_lt (t : List SRRow) (a : Nat)
    (ha : a ∈ t.map fun r => r.id) : a < nextId t := by
  obtain ⟨r, hr, rfl⟩ := List.mem_map.1 ha
  exact id_lt_nextId t r hr

/-- Serialized inserts preserve strict increase of the id column. -/
lemma insertAll_ids_pairwise (ds : List (ℚ × Bool)) :
    ∀ t : List SRRow, ((t.map fun r => r.id).Pairwise (· < ·)) →
      (((insertAll t ds).map fun r => r.id).Pairwise (· < ·)) := by
  induction ds with
  | nil => intro t ht; exact ht
  | cons d ds ih =>
    intro t ht
    apply ih
    unfold insertDecision
    rw [List.map_append, List.pairwise_append]
    refine ⟨ht, ?_, ?_⟩
    · simp
    · intro a ha b hb
      simp only [List.map_cons, List.map_nil, List.mem_singleton] at hb
      subst hb
      exact mem_ids_lt t a ha

-- Claims ----------------------------------------------------------------------

/-- C3: for every oracle failure — timeout, transport error, HTTP error
status, malformed JSON, or a parsed response missing the `response` field —
the decision equals `predicted_price > 50` exactly, and the fallback branch
returns normally: with both stores reachable the stage completes with that
decision. -/
theorem oracle_failure_falls_back_to_price_rule :
    ∀ (price : ℚ) (code : Nat) (st : Stores),
      getTradingDecisionFromOllama .timeout price = decide (price > 50) ∧
      getTradingDecisionFromOllama .transportError price = decide (price > 50) ∧
      getTradingDecisionFromOllama (.httpErrorStatus code) price =
        decide (price > 50) ∧
      getTradingDecisionFromOllama .malformedJson price = decide (price > 50) ∧
      getTradingDecisionFromOllama (.jsonOk none) price = decide (price > 50) ∧
      tradingDecisionAsset .timeout true true price st =
        .ok ((price, decide (price > 50)),
          ⟨st.delta ++ [⟨price, decide (price > 50)⟩],
           insertDecision st.sr price (decide (price > 50))⟩) :=
  fun _ _ _ => ⟨rfl, rfl, rfl, rfl, rfl, rfl⟩

/-- C4: on a successful oracle response carrying the `response` field, the
decision is true exactly when the response text contains the substring
`"yes"` case-insensitively; in particular `"Yes, trade now"` yields `true`
and `"no"` yields `false`. -/
theorem oracle_success_yes_substring_decides_trade :
    ∀ (text : List Char) (price : ℚ),
      getTradingDecisionFromOllama (.jsonOk (some text)) price =
        containsYesCI text ∧
      getTradingDecisionFromOllama
        (.jsonOk (some "Yes, trade now".toList)) price = true ∧
      getTradingDecisionFromOllama (.jsonOk (some "no".toList)) price = false := by
  intro text price
  refine ⟨?_, rfl, rfl⟩
  show pyContains yesToken ((pyStrip text).map pyLower) =
    pyContains yesToken (text.map pyLower)
  unfold pyContains
  rw [map_pyLower_pyStrip]
  exact decide_eq_decide.mpr
    (infix_stripEnds_iff pySpace yesToken (text.map pyLower) (by decide)
      (by decide))

/-- C1 counterexample: the Delta Lake write succeeds and the StarRocks write
fails, yet the stage raises (`.error`) instead of returning
`{predicted_price, should_trade}` — the surviving Delta store does hold the
one new record, but the claimed normal return does not happen. -/
theorem starrocks_failure_fails_decision_stage :
    tradingDecisionAsset .timeout true false 60 ⟨[], []⟩ =
      .error ⟨[⟨60, true⟩], []⟩ := rfl

/-- C1 amended: if the artifact-store (Delta Lake) write fails and the
relational-mirror (StarRocks) write succeeds, the stage still returns
`{predicted_price, should_trade}` and StarRocks gains exactly one record;
but if the StarRocks write fails the exception propagates and the stage
fails, whatever the Delta write did — the Delta record already written
(when its write succeeded) survives in the state left behind. -/
theorem dual_persistence_asymmetric :
    ∀ (o : OllamaOutcome) (price : ℚ) (st : Stores),
      tradingDecisionAsset o false true price st =
        .ok ((price, getTradingDecisionFromOllama o price),
          ⟨st.delta,
           insertDecision st.sr price (getTradingDecisionFromOllama o price)⟩) ∧
      (insertDecision st.sr price (getTradingDecisionFromOllama o price)).length =
        st.sr.length + 1 ∧
      (∀ deltaOk : Bool,
        tradingDecisionAsset o deltaOk false price st =
          .error (storeDecisionInDeltaLake deltaOk st
            ⟨price, getTradingDecisionFromOllama o price⟩)) ∧
      (storeDecisionInDeltaLake true st
          ⟨price, getTradingDecisionFromOllama o price⟩).delta =
        st.delta ++ [⟨price, getTradingDecisionFromOllama o price⟩] := by
  intro o price st
  refine ⟨rfl, ?_, fun dOk => rfl, rfl⟩
  simp [insertDecision]

/-- C2 counterexample: in the decision stage a Delta Lake append error (the
inner write raises) is caught and logged, not propagated — the stage
continues and returns normally, so an artifact-store append error is not
always surfaced as a hard stage failure. -/
theorem decision_delta_failure_swallowed :
    writeDecisionDelta false ⟨[], []⟩ ⟨60, true⟩ = .error () ∧
    storeDecisionInDeltaLake false ⟨[], []⟩ ⟨60, true⟩ = ⟨[], []⟩ ∧
    tradingDecisionAsset .timeout false true 60 ⟨[], []⟩ =
      .ok ((60, true), ⟨[], [⟨1, 60, true⟩]⟩) :=
  ⟨rfl, rfl, rfl⟩

/-- C2 amended: the weather-data stage re-raises its Delta Lake append error,
failing the stage; the decision stage's Delta Lake append error is caught and
logged and the stage continues normally. -/
theorem delta_error_propagation_split :
    ∀ (s : ConnSched) (loc : String) (df : List WeatherRow) (w : WeatherWorld)
      (o : OllamaOutcome) (price : ℚ) (st : Stores),
      weatherDataAsset false s loc df w = .error () ∧
      tradingDecisionAsset o false true price st =
        .ok ((price, getTradingDecisionFromOllama o price),
          ⟨st.delta,
           insertDecision st.sr price (getTradingDecisionFromOllama o price)⟩) :=
  fun _ _ _ _ _ _ _ => ⟨rfl, rfl⟩

/-- C7: the surrogate key is `IFNULL(MAX(id), 0) + 1` — `1` on an empty
table, the maximum existing id plus one in general, strictly above every id
already present — and under serialized inserts the id column is strictly
increasing, hence unique. -/
theorem surrogate_key_max_plus_one_serial :
    nextId [] = 1 ∧
    (∀ t : List SRRow, nextId t = maxId t + 1) ∧
    (∀ (t : List SRRow) (p : ℚ) (d : Bool),
      insertDecision t p d = t ++ [⟨nextId t, p, d⟩]) ∧
    (∀ t : List SRRow,
      ((t.map fun r => r.id).all fun i => decide (i < nextId t)) = true) ∧
    (∀ ds : List (ℚ × Bool),
      ((insertAll [] ds).map fun r => r.id).Pairwise (· < ·)) ∧
    (∀ ds : List (ℚ × Bool), ((insertAll [] ds).map fun r => r.id).Nodup) := by
  refine ⟨rfl, fun t => rfl, fun t p d => rfl, ?_, ?_, ?_⟩
  · intro t
    rw [List.all_eq_true]
    intro i hi
    exact decide_eq_true (mem_ids_lt t i hi)
  · intro ds
    exact insertAll_ids_pairwise ds [] (by simp)
  · intro ds
    exact (insertAll_ids_pairwise ds [] (by simp)).imp fun h => ne_of_lt h

/-- C8 counterexample: with the schedule writer1-read, writer2-read,
writer1-insert, writer2-insert from an empty table — possible because the
code has neither a client-side mutual-exclusion section nor a store-side
sequence — both writers read `MAX(id) = 0` and both insert id `1`. -/
theorem concurrent_duplicate_surrogate_keys :
    ((runSched 60 70 true false [true, false, true, false]
        ⟨[], .start, .start⟩).tbl.map fun r => r.id) = [1, 1] ∧
    ¬ ((runSched 60 70 true false [true, false, true, false]
        ⟨[], .start, .start⟩).tbl.map fun r => r.id).Nodup := by
  have h : ((runSched 60 70 true false [true, false, true, false]
      ⟨[], .start, .start⟩).tbl.map fun r => r.id) = [1, 1] := rfl
  exact ⟨h, by rw [h]; decide⟩

/-- C8 amended: the read-max-then-insert sequence is not serialized by the
code (no client-side lock, no store-side sequence); serialized schedules
assign distinct keys, while an interleaved schedule assigns duplicate keys,
for every pair of payloads. -/
theorem surrogate_keys_race :
    ∀ (pr1 pr2 : ℚ) (d1 d2 : Bool),
      ((runSched pr1 pr2 d1 d2 [true, true, false, false]
          ⟨[], .start, .start⟩).tbl.map fun r => r.id) = [1, 2] ∧
      ((runSched pr1 pr2 d1 d2 [true, true, false, false]
          ⟨[], .start, .start⟩).tbl.map fun r => r.id).Nodup ∧
      ((runSched pr1 pr2 d1 d2 [true, false, true, false]
          ⟨[], .start, .start⟩).tbl.map fun r => r.id) = [1, 1] :=
  fun pr1 pr2 d1 d2 =>
    have h12 : ((runSched pr1 pr2 d1 d2 [true, true, false, false]
        ⟨[], .start, .start⟩).tbl.map fun r => r.id) = [1, 2] := rfl
    ⟨h12, by rw [h12]; decide, rfl⟩

/-- C9: with fewer than 2 weather rows the prediction features are uniform
samples from temperature [15,30], humidity [40,80], wind speed [1,15]; with
2 or more rows exactly the last row's `temperature`, `humidity` and
`wind_speed` columns are used. -/
theorem latest_weather_selection (rows : List WeatherRow) (u1 u2 u3 : ℚ)
    (h1 : 0 ≤ u1 ∧ u1 < 1) (h2 : 0 ≤ u2 ∧ u2 < 1) (h3 : 0 ≤ u3 ∧ u3 < 1) :
    (∀ r : WeatherRow, 2 ≤ rows.length → rows.getLast? = some r →
      getLatestWeatherData rows u1 u2 u3 =
        ⟨r.temperature, r.humidity, r.wind_speed⟩) ∧
    (rows.length < 2 →
      getLatestWeatherData rows u1 u2 u3 =
        ⟨uniformSample 15 30 u1, uniformSample 40 80 u2,
         uniformSample 1 15 u3⟩) ∧
    15 ≤ uniformSample 15 30 u1 ∧ uniformSample 15 30 u1 ≤ 30 ∧
    40 ≤ uniformSample 40 80 u2 ∧ uniformSample 40 80 u2 ≤ 80 ∧
    1 ≤ uniformSample 1 15 u3 ∧ uniformSample 1 15 u3 ≤ 15 := by
  refine ⟨?_, ?_, ?_, ?_, ?_, ?_, ?_, ?_⟩
  · intro r hlen hlast
    unfold getLatestWeatherData
    rw [if_pos (by omega)]
    rw [List.getLastD_eq_getLast?, hlast]
    rfl
  · intro hlen
    unfold getLatestWeatherData
    rw [if_neg (by omega)]
  · unfold uniformSample
    nlinarith [h1.1, h1.2]
  · unfold uniformSample
    nlinarith [h1.1, h1.2]
  · unfold uniformSample
    nlinarith [h2.1, h2.2]
  · unfold uniformSample
    nlinarith [h2.1, h2.2]
  · unfold uniformSample
    nlinarith [h3.1, h3.2]
  · unfold uniformSample
    nlinarith [h3.1, h3.2]

/-- Witness for C9 at `rows = []`, all unit samples `1/2`: the hypotheses
hold and the synthetic-sampling branch is taken. -/
theorem latest_weather_selection_witness :
    getLatestWeatherData [] (1/2) (1/2) (1/2) =
      ⟨uniformSample 15 30 (1/2), uniformSample 40 80 (1/2),
       uniformSample 1 15 (1/2)⟩ :=
  (latest_weather_selection [] (1/2) (1/2) (1/2) (by norm_num) (by norm_num)
    (by norm_num)).2.1 (by decide)

/-- C10 counterexample: with the configured password `""` the password sent
is also `""` although `"" ≠ "root"` — refuting "empty exactly when the
configured password equals root". -/
theorem empty_password_passthrough :
    effectiveStarrocksPassword "" = "" ∧ ("" : String) ≠ "root" :=
  ⟨rfl, by decide⟩

/-- C10 amended: the password sent is `""` exactly when the configured
password is `"root"` (the default) or itself `""`; every other configured
value is sent unchanged; in particular the literal `"root"` can never be
sent. -/
theorem starrocks_password_mapping :
    ∀ p : String,
      (effectiveStarrocksPassword p = "" ↔ (p = "root" ∨ p = "")) ∧
      (effectiveStarrocksPassword p = p ∨ p = "root") ∧
      effectiveStarrocksPassword defaultStarrocksPassword = "" ∧
      effectiveStarrocksPassword p ≠ "root" := by
  intro p
  by_cases hp : p = "root"
  · subst hp
    exact ⟨by decide, Or.inr rfl, rfl, by decide⟩
  · refine ⟨?_, Or.inl ?_, rfl, ?_⟩
    · unfold effectiveStarrocksPassword
      rw [if_neg hp]
      constructor
      · intro he
        exact Or.inr he
      · rintro (he | he)
        · exact absurd he hp
        · exact he
    · unfold effectiveStarrocksPassword
      rw [if_neg hp]
    · unfold effectiveStarrocksPassword
      rw [if_neg hp]
      exact hp

-- Helper lemmas for the registration protocol ---------------------------------

/-- A `(ns, tbl)` pair with no catalog entry is invisible to `get_table`. -/
lemma hasTable_eq_false_of_countTable_eq_zero (cat : Catalog) (ns tbl : String)
    (h : cat.countTable ns tbl = 0) : cat.hasTable ns tbl = false := by
  unfold Catalog.countTable at h
  unfold Catalog.hasTable
  rw [List.any_eq_false]
  intro t ht
  exact List.countP_eq_zero.1 h t ht

/-- First registration of a fresh entry under full connectivity: the entry is
appended (creating the database if needed) and `.registered` is returned. -/
lemma registerHMS_allOk_fresh (cat : Catalog) (ns tbl : String)
    (cols : List (String × String × String)) (loc : String)
    (h : cat.hasTable ns tbl = false) :
    registerHMS allOk cat ns tbl cols loc false =
      (⟨if cat.hasDb ns then cat.databases else cat.databases ++ [ns],
        cat.tables ++ [⟨ns, tbl, cols, loc⟩]⟩, .registered) := by
  have h' : (cat.tables.any fun t => t.dbName = ns && t.tableName = tbl) = false := h
  unfold registerHMS registerInner tablePhase createAndVerify allOk
  by_cases hdb : cat.hasDb ns
  · simp [hdb, Catalog.hasTable, h']
  · simp [hdb, Catalog.hasTable, h']

/-- Registration when database and table are both present, with
`drop_if_exists = false` and full connectivity: a no-op returning
`.alreadyRegistered`. -/
lemma registerHMS_allOk_present (cat : Catalog) (ns tbl : String)
    (cols : List (String × String × String)) (loc : String)
    (hdb : cat.hasDb ns = true) (ht : cat.hasTable ns tbl = true) :
    registerHMS allOk cat ns tbl cols loc false = (cat, .alreadyRegistered) := by
  unfold registerHMS registerInner tablePhase allOk
  simp [hdb, ht]

/-- C5: two identical registrations with `drop_if_exists = false` against a
catalog not yet holding the entry produce exactly one catalog entry; both
calls return success (`.registered`, then `.alreadyRegistered`), the second
finding the table present and returning without modification. -/
theorem register_twice_idempotent (cat : Catalog) (ns tbl : String)
    (cols : List (String × String × String)) (loc : String)
    (h : cat.countTable ns tbl = 0) :
    (registerHMS allOk cat ns tbl cols loc false).2 = .registered ∧
    (registerHMS allOk (registerHMS allOk cat ns tbl cols loc false).1
        ns tbl cols loc false).2 = .alreadyRegistered ∧
    (registerHMS allOk (registerHMS allOk cat ns tbl cols loc false).1
        ns tbl cols loc false).1 =
      (registerHMS allOk cat ns tbl cols loc false).1 ∧
    ((registerHMS allOk cat ns tbl cols loc false).1).countTable ns tbl = 1 := by
  have hft := hasTable_eq_false_of_countTable_eq_zero cat ns tbl h
  rw [registerHMS_allOk_fresh cat ns tbl cols loc hft]
  have hdb1 : (Catalog.mk
      (if cat.hasDb ns then cat.databases else cat.databases ++ [ns])
      (cat.tables ++ [⟨ns, tbl, cols, loc⟩])).hasDb ns = true := by
    by_cases hdb : cat.hasDb ns = true
    · rw [if_pos hdb]
      exact hdb
    · rw [if_neg hdb]
      unfold Catalog.hasDb
      simp
  have ht1 : (Catalog.mk
      (if cat.hasDb ns then cat.databases else cat.databases ++ [ns])
      (cat.tables ++ [⟨ns, tbl, cols, loc⟩])).hasTable ns tbl = true := by
    simp [Catalog.hasTable]
  rw [registerHMS_allOk_present _ ns tbl cols loc hdb1 ht1]
  refine ⟨rfl, rfl, rfl, ?_⟩
  unfold Catalog.countTable at h ⊢
  simp [List.countP_append, h]

/-- Witness for C5: both registrations against the empty catalog. -/
theorem register_twice_idempotent_witness :
    (registerHMS allOk ⟨[], []⟩ "analytics" "trading_decisions" [] "l"
        false).2 = .registered ∧
    (registerHMS allOk
        (registerHMS allOk ⟨[], []⟩ "analytics" "trading_decisions" [] "l"
          false).1 "analytics" "trading_decisions" [] "l" false).2 =
      .alreadyRegistered ∧
    (registerHMS allOk
        (registerHMS allOk ⟨[], []⟩ "analytics" "trading_decisions" [] "l"
          false).1 "analytics" "trading_decisions" [] "l" false).1 =
      (registerHMS allOk ⟨[], []⟩ "analytics" "trading_decisions" [] "l"
        false).1 ∧
    ((registerHMS allOk ⟨[], []⟩ "analytics" "trading_decisions" [] "l"
        false).1).countTable "analytics" "trading_decisions" = 1 :=
  register_twice_idempotent ⟨[], []⟩ "analytics" "trading_decisions" [] "l" rfl

/-- C6: any exception escaping the registrar's body — in particular a
connectivity failure on any remote Metastore call — is absorbed by the outer
handlers: the registrar returns normally with a soft-failure signal, and the
owning weather stage (whose Delta write succeeded) still completes `.ok`,
the physically written dataset in place, whatever the registration
schedule. -/
theorem register_connectivity_soft_failure (s : ConnSched) (cat : Catalog)
    (ns tbl : String) (cols : List (String × String × String)) (loc : String)
    (dropIfExists : Bool) (c : Catalog) (hs : s.hmsAvailable = true)
    (h : registerInner s cat ns tbl cols loc dropIfExists = .error c) :
    registerHMS s cat ns tbl cols loc dropIfExists = (c, .softFail) ∧
    ∀ (loc2 : String) (df : List WeatherRow) (w : WeatherWorld),
      weatherDataAsset true s loc2 df w =
        .ok (df, ⟨w.delta ++ df,
          (registerHMS s w.catalog "raw_data" "weather" weatherCols loc2
            false).1⟩) := by
  constructor
  · simp [registerHMS, hs, h]
  · intro loc2 df w
    rfl

/-- Witness for C6: `client.open()` fails against the empty catalog; the
registrar soft-fails and the weather stage still returns `.ok`. -/
theorem register_connectivity_soft_failure_witness :
    registerHMS ⟨true, false, true, true, true, true, true, true, true⟩
      ⟨[], []⟩ "analytics" "trading_decisions" [] "l" false =
      (⟨[], []⟩, .softFail) ∧
    weatherDataAsset true ⟨true, false, true, true, true, true, true, true, true⟩
      "l2" [] ⟨[], ⟨[], []⟩⟩ =
      .ok ([], ⟨(⟨[], ⟨[], []⟩⟩ : WeatherWorld).delta ++ [],
        (registerHMS ⟨true, false, true, true, true, true, true, true, true⟩
          (⟨[], ⟨[], []⟩⟩ : WeatherWorld).catalog "raw_data" "weather"
          weatherCols "l2" false).1⟩) :=
  ⟨(register_connectivity_soft_failure
      ⟨true, false, true, true, true, true, true, true, true⟩ ⟨[], []⟩
      "analytics" "trading_decisions" [] "l" false ⟨[], []⟩ rfl rfl).1,
   (register_connectivity_soft_failure
      ⟨true, false, true, true, true, true, true, true, true⟩ ⟨[], []⟩
      "analytics" "trading_decisions" [] "l" false ⟨[], []⟩ rfl rfl).2
     "l2" [] ⟨[], ⟨[], []⟩⟩⟩
